import Mathlib

/-!
# The Linux platform-channel plugin of `flutter_taerae`

A shallow embedding of `packages/flutter_taerae/linux/flutter_taerae_plugin.cc`:
the method dispatcher `flutter_taerae_plugin_handle_method_call`, the handler
`get_platform_version`, and the registration routine
`flutter_taerae_plugin_register_with_registrar`.

Conventions of the embedding.

* A `char*` is the list of bytes found at the pointed address; the C string it
  denotes is the run of bytes before the first NUL (`cstr`).
* `uname(2)` is the only query made of the operating system; an `Os` value is
  what that call does to the buffer it is handed and what it returns.
* GObject instances live in a heap of reference-counted cells; the address of
  an instance is its index in the heap.
-/

namespace Taerae

/-! ## C strings -/

/-- Bytes in memory, one natural number per `char`. -/
abbrev Bytes := List Nat

/-- The C string held by a buffer: the bytes before the first NUL. -/
def cstr (p : Bytes) : Bytes := p.takeWhile (fun c => c != 0)

/-- The characters of a piece of source text, without a terminator. -/
def ascii (s : String) : Bytes := s.toList.map Char.toNat

/-- A C string literal in memory: its characters and the terminating NUL. -/
def lit (s : String) : Bytes := ascii s ++ [0]

/-- The C library `strcmp`: walks both strings until the bytes differ or the
terminator is reached, and returns the difference of the two bytes where it
stopped.  The end of a buffer counts as a terminator. -/
def strcmp : Bytes → Bytes → Int
  | [], [] => 0
  | [], b :: _ => 0 - (b : Int)
  | a :: _, [] => (a : Int)
  | a :: as, b :: bs =>
    if a ≠ b then (a : Int) - (b : Int)
    else if a = 0 then 0
    else strcmp as bs

/-- The directive expansion behind `g_strdup_printf`, for the directives the
plugin uses: `%s` (byte 37, byte 115) inserts the C string of the next
argument, `%%` a percent sign, every other byte is copied. -/
def expand : Bytes → List Bytes → Bytes
  | 37 :: 115 :: rest, a :: args => cstr a ++ expand rest args
  | 37 :: 37 :: rest, args => 37 :: expand rest args
  | c :: rest, args => c :: expand rest args
  | [], _ => []

/-- GLib `g_strdup_printf`: a freshly allocated NUL-terminated string holding
the expansion of the format. -/
def g_strdup_printf (format : Bytes) (args : List Bytes) : Bytes :=
  expand (cstr format) args ++ [0]

/-! ## The operating system -/

/-- The result buffer of `uname(2)`, `struct utsname` of `<sys/utsname.h>`.
Each field is a `char` array that the kernel fills with a NUL-terminated
string. -/
structure utsname where
  sysname : Bytes
  nodename : Bytes
  release : Bytes
  version : Bytes
  machine : Bytes
  domainname : Bytes
  deriving DecidableEq, Repr

/-- Length of each `utsname` field, `_UTSNAME_LENGTH` of the Linux C library:
64 characters and the terminator. -/
def UTSNAME_LENGTH : Nat := 65

/-- The value of `struct utsname uname_data = {};`: every byte is zero. -/
def utsname_zero : utsname :=
  { sysname := List.replicate UTSNAME_LENGTH 0
    nodename := List.replicate UTSNAME_LENGTH 0
    release := List.replicate UTSNAME_LENGTH 0
    version := List.replicate UTSNAME_LENGTH 0
    machine := List.replicate UTSNAME_LENGTH 0
    domainname := List.replicate UTSNAME_LENGTH 0 }

/-- The state of the operating system as the plugin observes it: the effect of
one `uname(&buf)` call, as the returned status and the buffer afterwards. -/
structure Os where
  uname : utsname → Int × utsname

/-! ## Flutter values, responses and method calls -/

/-- The structured values of the standard codec, `FlValue`: null, booleans,
integers, strings, lists and maps. -/
inductive FlValue where
  | null
  | bool (b : Bool)
  | int (i : Int)
  | string (s : Bytes)
  | list (items : List FlValue)
  | map (entries : List (FlValue × FlValue))

/-- The three kinds of `FlMethodResponse`. -/
inductive FlMethodResponse where
  | success (result : FlValue)
  | error (code : Bytes) (message : Bytes) (details : FlValue)
  | not_implemented

/-- Flutter `fl_value_new_string`: copies the C string at the pointer. -/
def fl_value_new_string (p : Bytes) : FlValue := FlValue.string (cstr p)

/-- Flutter `fl_method_success_response_new`. -/
def fl_method_success_response_new (result : FlValue) : FlMethodResponse :=
  FlMethodResponse.success result

/-- Flutter `fl_method_not_implemented_response_new`. -/
def fl_method_not_implemented_response_new : FlMethodResponse :=
  FlMethodResponse.not_implemented

/-- An `FlMethodCall`: the method name buffer, the argument payload, and the
log of what has been passed to `fl_method_call_respond` on it so far (a null
response pointer is `none`). -/
structure FlMethodCall where
  name : Bytes
  args : FlValue
  responses : List (Option FlMethodResponse)

/-- Flutter `fl_method_call_get_name`. -/
def fl_method_call_get_name (method_call : FlMethodCall) : Bytes := method_call.name

/-- Flutter `fl_method_call_respond`: hands one response to the channel. -/
def fl_method_call_respond (method_call : FlMethodCall)
    (response : Option FlMethodResponse) : FlMethodCall :=
  { method_call with responses := method_call.responses ++ [response] }

/-! ## GObject instances -/

/-- Address of a GObject instance. -/
abbrev gpointer := Nat

/-- Addresses of the functions the plugin passes around as callbacks. -/
inductive FnPtr where
  | method_call_cb
  | g_object_unref
  deriving DecidableEq, Repr

/-- What `fl_method_channel_set_method_call_handler` stores in a channel. -/
structure MethodCallHandler where
  handler : FnPtr
  user_data : gpointer
  destroy_notify : FnPtr
  deriving DecidableEq, Repr

/-- The instances the plugin allocates.  `TaeraeFlutterPlugin` is
`struct _TaeraeFlutterPlugin`, which has no field besides its parent instance;
a method channel records the messenger it is bound to, its name, its codec and
the installed call handler. -/
inductive Instance where
  | TaeraeFlutterPlugin
  | FlStandardMethodCodec
  | FlMethodChannel (messenger : gpointer) (name : Bytes) (codec : gpointer)
      (method_call_handler : Option MethodCallHandler)
  deriving DecidableEq, Repr

/-- A heap cell: the `GObject` reference count and the instance data. -/
structure Cell where
  ref_count : Nat
  inst : Instance
  deriving DecidableEq, Repr

/-- The heap of GObject instances; an address is an index into it. -/
abbrev Heap := List Cell

/-- Rewrites the cell at an address, if there is one. -/
def adjust (h : Heap) (p : gpointer) (f : Cell → Cell) : Heap :=
  match h[p]? with
  | some c => h.set p (f c)
  | none => h

/-- GObject `g_object_new`: a fresh instance holding one reference. -/
def g_object_new (h : Heap) (inst : Instance) : Heap × gpointer :=
  (h ++ [{ ref_count := 1, inst := inst }], h.length)

/-- GObject `g_object_ref`: one more reference; returns its argument. -/
def g_object_ref (h : Heap) (p : gpointer) : Heap × gpointer :=
  (adjust h p (fun c => { c with ref_count := c.ref_count + 1 }), p)

/-- GObject `g_object_unref`: one reference fewer.  An instance whose count
reaches zero is dead; its address is not reused. -/
def g_object_unref (h : Heap) (p : gpointer) : Heap :=
  adjust h p (fun c => { c with ref_count := c.ref_count - 1 })

/-- GLib `g_strdup`: a copy of the C string at the pointer. -/
def g_strdup (p : Bytes) : Bytes := cstr p ++ [0]

/-- The registrar handle the host passes to the plugin. -/
structure FlPluginRegistrar where
  messenger : gpointer
  deriving DecidableEq, Repr

/-- Flutter `fl_plugin_registrar_get_messenger`. -/
def fl_plugin_registrar_get_messenger (registrar : FlPluginRegistrar) : gpointer :=
  registrar.messenger

/-- Flutter `fl_standard_method_codec_new`. -/
def fl_standard_method_codec_new (h : Heap) : Heap × gpointer :=
  g_object_new h Instance.FlStandardMethodCodec

/-- Flutter `fl_method_channel_new`: a channel on the given messenger with a
copy of the name and a reference to the codec, no call handler yet.  The
channel enrols itself with the messenger, which keeps a reference to it next to
the one returned to the caller. -/
def fl_method_channel_new (h : Heap) (messenger : gpointer) (name : Bytes)
    (codec : gpointer) : Heap × gpointer :=
  let (h, codec) := g_object_ref h codec
  let (h, self) := g_object_new h (Instance.FlMethodChannel messenger (g_strdup name) codec none)
  let (h, self) := g_object_ref h self
  (h, self)

/-- Flutter `fl_method_channel_set_method_call_handler`. -/
def fl_method_channel_set_method_call_handler (h : Heap) (channel : gpointer)
    (handler : FnPtr) (user_data : gpointer) (destroy_notify : FnPtr) : Heap :=
  adjust h channel (fun c =>
    match c.inst with
    | Instance.FlMethodChannel messenger name codec _ =>
      { c with inst := Instance.FlMethodChannel messenger name codec
                 (some { handler := handler, user_data := user_data,
                         destroy_notify := destroy_notify }) }
    | _ => c)

/-! ## The plugin -/

/-- The cast macro `TAERAE_FLUTTER_PLUGIN`: the same address, typed as a plugin. -/
def TAERAE_FLUTTER_PLUGIN (obj : gpointer) : gpointer := obj

/-- The upcast macro `FL_METHOD_CODEC`. -/
def FL_METHOD_CODEC (obj : gpointer) : gpointer := obj

/-- Source `get_platform_version` (lines 38-44). -/
def get_platform_version (os : Os) : FlMethodResponse :=
  let uname_data := utsname_zero
  let uname_data := (os.uname uname_data).2
  let version := g_strdup_printf (lit "Linux %s") [uname_data.version]
  let result := fl_value_new_string version
  fl_method_success_response_new result

/-- Source `flutter_taerae_plugin_handle_method_call` (lines 22-36). -/
def flutter_taerae_plugin_handle_method_call (os : Os) (_self : gpointer)
    (method_call : FlMethodCall) : FlMethodCall := Id.run do
  let mut response : Option FlMethodResponse := none
  let method := fl_method_call_get_name method_call
  if strcmp method (lit "getPlatformVersion") = 0 then
    response := some (get_platform_version os)
  else
    response := some fl_method_not_implemented_response_new
  return fl_method_call_respond method_call response

/-- Source `method_call_cb` (lines 56-60). -/
def method_call_cb (os : Os) (_channel : gpointer) (method_call : FlMethodCall)
    (user_data : gpointer) : FlMethodCall :=
  let plugin := TAERAE_FLUTTER_PLUGIN user_data
  flutter_taerae_plugin_handle_method_call os plugin method_call

/-- Source `flutter_taerae_plugin_register_with_registrar` (lines 62-76).  The
two `g_autoptr` locals are released when the function returns, in reverse
order of declaration. -/
def flutter_taerae_plugin_register_with_registrar (h : Heap)
    (registrar : FlPluginRegistrar) : Heap :=
  let (h, obj) := g_object_new h Instance.TaeraeFlutterPlugin
  let plugin := TAERAE_FLUTTER_PLUGIN obj
  let (h, codec) := fl_standard_method_codec_new h
  let (h, channel) :=
    fl_method_channel_new h (fl_plugin_registrar_get_messenger registrar)
      (lit "flutter_taerae") (FL_METHOD_CODEC codec)
  let (h, user_data) := g_object_ref h plugin
  let h := fl_method_channel_set_method_call_handler h channel FnPtr.method_call_cb
    user_data FnPtr.g_object_unref
  let h := g_object_unref h plugin
  let h := g_object_unref h channel
  let h := g_object_unref h codec
  h

/-- Calls a method-call handler through its address.  Only `method_call_cb`
has the handler signature; any other address leaves the call unanswered. -/
def call_handler (os : Os) (f : FnPtr) (channel : gpointer) (method_call : FlMethodCall)
    (user_data : gpointer) : FlMethodCall :=
  match f with
  | FnPtr.method_call_cb => method_call_cb os channel method_call user_data
  | FnPtr.g_object_unref => method_call

/-- What a channel does with an incoming method call: it calls the installed
handler with itself, the call and the handler data.  With no handler, or when
the address is not a channel, the call is left as it is. -/
def fl_method_channel_receive (os : Os) (h : Heap) (channel : gpointer)
    (method_call : FlMethodCall) : FlMethodCall :=
  match h[channel]? with
  | some { ref_count := _, inst := Instance.FlMethodChannel _ _ _ (some mh) } =>
    call_handler os mh.handler channel method_call mh.user_data
  | _ => method_call

/-! ## The response pattern of the specification -/

/-- The pattern `"<token> <token...>"` of the specification, tokens being runs
of bytes other than the space (byte 32): a non-empty first token, then one
space, then a byte that is not a space, which starts a further non-empty
token. -/
def matchesTokenPattern (s : Bytes) : Bool :=
  let first := s.takeWhile (fun c => c != 32)
  match s.dropWhile (fun c => c != 32) with
  | _ :: c :: _ => !first.isEmpty && c != 32
  | _ => false

/-! ## Concrete hosts and invocations -/

/-- A `utsname` field as the kernel fills it: the text, then NUL bytes up to
the length of the field. -/
def field (s : String) : Bytes :=
  ascii s ++ List.replicate (UTSNAME_LENGTH - (ascii s).length) 0

/-- An operating system on which `uname` fails: it returns -1 and writes
nothing into the buffer. -/
def uname_fails : Os :=
  { uname := fun buf => (-1, buf) }

/-- An Ubuntu host running kernel release `5.15.0-76-generic`. -/
def host_ubuntu : Os :=
  { uname := fun _ =>
      (0, { sysname := field "Linux", nodename := field "host",
            release := field "5.15.0-76-generic",
            version := field "#83-Ubuntu SMP Thu Jun 15 19:16:32 UTC 2023",
            machine := field "x86_64", domainname := field "(none)" }) }

/-- A host whose `version` field reads `5.15.0-76-generic` while its `release`
field reads something else. -/
def host_version_field : Os :=
  { uname := fun _ =>
      (0, { sysname := field "Linux", nodename := field "host",
            release := field "6.1.0",
            version := field "5.15.0-76-generic",
            machine := field "x86_64", domainname := field "(none)" }) }

/-- A fresh invocation: nothing has been responded on it yet. -/
def invocation (name : String) (args : FlValue) : FlMethodCall :=
  { name := lit name, args := args, responses := [] }

/-! ## Auxiliary facts -/

theorem strcmp_eq_zero_iff (a b : Bytes) : strcmp a b = 0 ↔ cstr a = cstr b := by
  induction a generalizing b with
  | nil =>
    cases b with
    | nil => simp [strcmp, cstr]
    | cons y ys =>
      by_cases hy : y = 0
      · simp [strcmp, cstr, hy]
      · simp [strcmp, cstr, hy]
  | cons x xs ih =>
    cases b with
    | nil =>
      by_cases hx : x = 0
      · simp [strcmp, cstr, hx]
      · simp [strcmp, cstr, hx]
    | cons y ys =>
      by_cases hxy : x = y
      · subst hxy
        by_cases hx : x = 0
        · simp [strcmp, cstr, hx]
        · have := ih ys
          simp only [cstr] at this
          simp [strcmp, cstr, hx, this]
      · by_cases hx : x = 0
        · subst hx
          have hy : ¬ y = 0 := fun h => hxy h.symm
          simp [strcmp, cstr, hxy, hy]
        · by_cases hy : y = 0
          · subst hy
            simp [strcmp, cstr, hx]
          · simp [strcmp, cstr, hxy, hx, hy]
            omega

theorem zero_not_mem_cstr (p : Bytes) : 0 ∉ cstr p := by
  intro h
  have := List.mem_takeWhile_imp h
  simp at this

theorem cstr_append_nul (s t : Bytes) (hs : 0 ∉ s) : cstr (s ++ 0 :: t) = s := by
  unfold cstr
  rw [List.takeWhile_append_of_pos]
  · simp
  · intro c hc
    simp only [bne_iff_ne, ne_eq]
    rintro rfl
    exact hs hc

theorem get_platform_version_eq (os : Os) :
    get_platform_version os =
      FlMethodResponse.success
        (FlValue.string (ascii "Linux " ++ cstr (os.uname utsname_zero).2.version)) := by
  have hfmt : cstr (lit "Linux %s") = [76, 105, 110, 117, 120, 32, 37, 115] := by decide
  have hpre : ascii "Linux " = [76, 105, 110, 117, 120, 32] := by decide
  have hnz : 0 ∉ ascii "Linux " ++ cstr (os.uname utsname_zero).2.version := by
    intro h
    rcases List.mem_append.mp h with h | h
    · revert h; decide
    · exact zero_not_mem_cstr _ h
  have hexp : expand (cstr (lit "Linux %s")) [(os.uname utsname_zero).2.version] =
      ascii "Linux " ++ cstr (os.uname utsname_zero).2.version := by
    rw [hfmt, hpre]
    simp [expand]
  simp only [get_platform_version, g_strdup_printf, fl_value_new_string,
    fl_method_success_response_new, hexp]
  rw [cstr_append_nul _ _ hnz]

theorem handle_method_call_eq (os : Os) (self : gpointer) (mc : FlMethodCall) :
    flutter_taerae_plugin_handle_method_call os self mc =
      fl_method_call_respond mc
        (some (if cstr mc.name = ascii "getPlatformVersion" then get_platform_version os
               else FlMethodResponse.not_implemented)) := by
  have hl : cstr (lit "getPlatformVersion") = ascii "getPlatformVersion" := by decide
  unfold flutter_taerae_plugin_handle_method_call
  simp only [Id.run, fl_method_call_get_name, strcmp_eq_zero_iff, hl,
    fl_method_not_implemented_response_new]
  split <;> simp_all
theorem adjust_nil (p : Nat) (f : Cell → Cell) : adjust [] p f = [] := by
  simp [adjust]

theorem adjust_cons_zero (c : Cell) (cs : Heap) (f : Cell → Cell) :
    adjust (c :: cs) 0 f = f c :: cs := by
  simp [adjust]

theorem adjust_cons_succ (c : Cell) (cs : Heap) (p : Nat) (f : Cell → Cell) :
    adjust (c :: cs) (p + 1) f = c :: adjust cs p f := by
  unfold adjust
  simp only [List.getElem?_cons_succ]
  cases cs[p]? with
  | none => rfl
  | some d => simp

theorem adjust_append_right (h t : Heap) (k : Nat) (f : Cell → Cell) :
    adjust (h ++ t) (h.length + k) f = h ++ adjust t k f := by
  unfold adjust
  rw [List.getElem?_append_right (by omega)]
  simp only [Nat.add_sub_cancel_left]
  cases t[k]? with
  | none => rfl
  | some c => simp [List.set_append_right]

theorem adjust_append_length (h t : Heap) (f : Cell → Cell) :
    adjust (h ++ t) h.length f = h ++ adjust t 0 f :=
  adjust_append_right h t 0 f

theorem g_strdup_lit (s : String) (hs : 0 ∉ ascii s) : g_strdup (lit s) = lit s := by
  unfold g_strdup lit cstr
  rw [List.takeWhile_append_of_pos]
  · simp
  · intro c hc
    simp only [bne_iff_ne, ne_eq]
    rintro rfl
    exact hs hc

theorem register_eq (h : Heap) (r : FlPluginRegistrar) :
    flutter_taerae_plugin_register_with_registrar h r =
      h ++ [{ ref_count := 1, inst := Instance.TaeraeFlutterPlugin },
            { ref_count := 1, inst := Instance.FlStandardMethodCodec },
            { ref_count := 1,
              inst := Instance.FlMethodChannel r.messenger (lit "flutter_taerae")
                (h.length + 1)
                (some { handler := FnPtr.method_call_cb, user_data := h.length,
                        destroy_notify := FnPtr.g_object_unref }) }] := by
  have hn : g_strdup (lit "flutter_taerae") = lit "flutter_taerae" :=
    g_strdup_lit _ (by decide)
  simp [flutter_taerae_plugin_register_with_registrar, g_object_new,
    fl_standard_method_codec_new, fl_method_channel_new, g_object_ref, g_object_unref,
    fl_method_channel_set_method_call_handler, TAERAE_FLUTTER_PLUGIN, FL_METHOD_CODEC,
    fl_plugin_registrar_get_messenger, adjust_append_right, adjust_append_length,
    adjust_cons_zero, adjust_cons_succ, adjust_nil, hn]

theorem receive_append (os : Os) (h : Heap) (a b : Cell) (ref_count : Nat)
    (messenger : gpointer) (name : Bytes) (codec user_data : gpointer)
    (destroy_notify : FnPtr) (rest : Heap) (mc : FlMethodCall) :
    fl_method_channel_receive os
        (h ++ a :: b ::
          { ref_count := ref_count,
            inst := Instance.FlMethodChannel messenger name codec
              (some { handler := FnPtr.method_call_cb, user_data := user_data,
                      destroy_notify := destroy_notify }) } :: rest)
        (h.length + 2) mc =
      flutter_taerae_plugin_handle_method_call os user_data mc := by
  unfold fl_method_channel_receive
  rw [List.getElem?_append_right (by omega)]
  simp [call_handler, method_call_cb, TAERAE_FLUTTER_PLUGIN]

/-! ## The method dispatcher -/

/-- Claim C1: for every invocation whose name is exactly `getPlatformVersion`
and every version string `v` that `uname` leaves in the buffer, the dispatcher
responds with Success carrying `"Linux "` followed by `v` and nothing else. -/
theorem C1_getPlatformVersion_success (os : Os) (self : gpointer) (mc : FlMethodCall)
    (v : Bytes) (hname : cstr mc.name = ascii "getPlatformVersion")
    (hv : cstr (os.uname utsname_zero).2.version = v) :
    (flutter_taerae_plugin_handle_method_call os self mc).responses =
      mc.responses ++ [some (FlMethodResponse.success (FlValue.string (ascii "Linux " ++ v)))] := by
  rw [handle_method_call_eq, get_platform_version_eq, hv]
  simp [fl_method_call_respond, hname]

theorem C1_getPlatformVersion_success_witness :
    cstr (invocation "getPlatformVersion" FlValue.null).name = ascii "getPlatformVersion" ∧
    cstr (host_ubuntu.uname utsname_zero).2.version =
      ascii "#83-Ubuntu SMP Thu Jun 15 19:16:32 UTC 2023" ∧
    (flutter_taerae_plugin_handle_method_call host_ubuntu 0
        (invocation "getPlatformVersion" FlValue.null)).responses =
      [] ++ [some (FlMethodResponse.success (FlValue.string
        (ascii "Linux " ++ ascii "#83-Ubuntu SMP Thu Jun 15 19:16:32 UTC 2023")))] :=
  ⟨by decide, by decide,
    C1_getPlatformVersion_success host_ubuntu 0 (invocation "getPlatformVersion" FlValue.null)
      (ascii "#83-Ubuntu SMP Thu Jun 15 19:16:32 UTC 2023") (by decide) (by decide)⟩

/-- Claim C2: for every invocation whose name is anything other than exactly
`getPlatformVersion`, and every argument payload, the dispatcher responds with
NotImplemented. -/
theorem C2_other_name_not_implemented (os : Os) (self : gpointer) (mc : FlMethodCall)
    (hname : cstr mc.name ≠ ascii "getPlatformVersion") :
    (flutter_taerae_plugin_handle_method_call os self mc).responses =
      mc.responses ++ [some FlMethodResponse.not_implemented] := by
  rw [handle_method_call_eq]
  simp [fl_method_call_respond, hname]

theorem C2_other_name_not_implemented_witness :
    (cstr (invocation "" (FlValue.map [])).name ≠ ascii "getPlatformVersion" ∧
      (flutter_taerae_plugin_handle_method_call host_ubuntu 0
          (invocation "" (FlValue.map []))).responses =
        [] ++ [some FlMethodResponse.not_implemented]) ∧
    (cstr (invocation "getBatteryLevel" FlValue.null).name ≠ ascii "getPlatformVersion" ∧
      (flutter_taerae_plugin_handle_method_call host_ubuntu 0
          (invocation "getBatteryLevel" FlValue.null)).responses =
        [] ++ [some FlMethodResponse.not_implemented]) ∧
    (cstr (invocation "getplatformversion" (FlValue.int 1)).name ≠ ascii "getPlatformVersion" ∧
      (flutter_taerae_plugin_handle_method_call uname_fails 0
          (invocation "getplatformversion" (FlValue.int 1))).responses =
        [] ++ [some FlMethodResponse.not_implemented]) ∧
    (cstr (invocation "getPlatformVersion2" (FlValue.list [FlValue.bool true])).name ≠
        ascii "getPlatformVersion" ∧
      (flutter_taerae_plugin_handle_method_call uname_fails 0
          (invocation "getPlatformVersion2" (FlValue.list [FlValue.bool true]))).responses =
        [] ++ [some FlMethodResponse.not_implemented]) :=
  ⟨⟨by decide, C2_other_name_not_implemented host_ubuntu 0 _ (by decide)⟩,
   ⟨by decide, C2_other_name_not_implemented host_ubuntu 0 _ (by decide)⟩,
   ⟨by decide, C2_other_name_not_implemented uname_fails 0 _ (by decide)⟩,
   ⟨by decide, C2_other_name_not_implemented uname_fails 0 _ (by decide)⟩⟩

/-- Claim C3, refuted as stated: when `uname` fails, the `getPlatformVersion`
response is Success carrying `"Linux "`, which has no second token, so no
Success value matching the pattern is produced. -/
theorem C3_pattern_counterexample :
    (flutter_taerae_plugin_handle_method_call uname_fails 0
        (invocation "getPlatformVersion" FlValue.null)).responses =
      [some (FlMethodResponse.success (FlValue.string (ascii "Linux ")))] ∧
    matchesTokenPattern (ascii "Linux ") = false ∧
    ¬ ∃ s, (flutter_taerae_plugin_handle_method_call uname_fails 0
              (invocation "getPlatformVersion" FlValue.null)).responses =
            [some (FlMethodResponse.success (FlValue.string s))] ∧
          s ≠ [] ∧ matchesTokenPattern s = true := by
  have h : (flutter_taerae_plugin_handle_method_call uname_fails 0
        (invocation "getPlatformVersion" FlValue.null)).responses =
      [some (FlMethodResponse.success (FlValue.string (ascii "Linux ")))] := rfl
  refine ⟨h, by decide, ?_⟩
  rintro ⟨s, hs, -, hm⟩
  rw [h] at hs
  simp only [List.cons.injEq, Option.some.injEq, FlMethodResponse.success.injEq,
    FlValue.string.injEq, and_true] at hs
  subst hs
  revert hm
  decide

/-- Claim C3, amended: for every invocation named `getPlatformVersion` and every
OS state the response is Success and its string is non-empty, namely `"Linux "`
followed by the version string `v` left in the buffer; it matches the pattern
`"<token> <token...>"` exactly when `v` is non-empty and does not begin with a
space.  When `uname` leaves the zero-initialised buffer untouched, as a failing
call that writes nothing does, or when it reports an empty version, the string
is exactly `"Linux "` and does not match the pattern. -/
theorem C3_success_nonempty_pattern (os : Os) (self : gpointer) (mc : FlMethodCall)
    (hname : cstr mc.name = ascii "getPlatformVersion") :
    ∃ s, (flutter_taerae_plugin_handle_method_call os self mc).responses =
          mc.responses ++ [some (FlMethodResponse.success (FlValue.string s))] ∧
      s = ascii "Linux " ++ cstr (os.uname utsname_zero).2.version ∧
      s ≠ [] ∧
      (matchesTokenPattern s = true ↔
        ∃ c rest, cstr (os.uname utsname_zero).2.version = c :: rest ∧ c ≠ 32) ∧
      ((os.uname utsname_zero).2 = utsname_zero →
        s = ascii "Linux " ∧ matchesTokenPattern s = false) ∧
      (cstr (os.uname utsname_zero).2.version = [] →
        s = ascii "Linux " ∧ matchesTokenPattern s = false) := by
  have hpre : ascii "Linux " = [76, 105, 110, 117, 120, 32] := by decide
  have hz : cstr utsname_zero.version = [] := by decide
  have hno : matchesTokenPattern (ascii "Linux ") = false := by decide
  refine ⟨ascii "Linux " ++ cstr (os.uname utsname_zero).2.version, ?_, rfl, ?_, ?_, ?_, ?_⟩
  · rw [handle_method_call_eq, get_platform_version_eq]
    simp [fl_method_call_respond, hname]
  · simp [hpre]
  · rw [hpre]
    cases hv : cstr (os.uname utsname_zero).2.version with
    | nil => simp [matchesTokenPattern]
    | cons c rest => simp [matchesTokenPattern]
  · intro hbuf
    rw [hbuf, hz, List.append_nil]
    exact ⟨rfl, hno⟩
  · intro hv
    rw [hv, List.append_nil]
    exact ⟨rfl, hno⟩

theorem C3_success_nonempty_pattern_witness :
    cstr (invocation "getPlatformVersion" FlValue.null).name = ascii "getPlatformVersion" ∧
    (uname_fails.uname utsname_zero).1 = -1 ∧
    (uname_fails.uname utsname_zero).2 = utsname_zero ∧
    ∃ s, (flutter_taerae_plugin_handle_method_call uname_fails 0
            (invocation "getPlatformVersion" FlValue.null)).responses =
          [] ++ [some (FlMethodResponse.success (FlValue.string s))] ∧
      s = ascii "Linux " ++ cstr (uname_fails.uname utsname_zero).2.version ∧
      s ≠ [] ∧
      (matchesTokenPattern s = true ↔
        ∃ c rest, cstr (uname_fails.uname utsname_zero).2.version = c :: rest ∧
          c ≠ 32) ∧
      ((uname_fails.uname utsname_zero).2 = utsname_zero →
        s = ascii "Linux " ∧ matchesTokenPattern s = false) ∧
      (cstr (uname_fails.uname utsname_zero).2.version = [] →
        s = ascii "Linux " ∧ matchesTokenPattern s = false) :=
  ⟨by decide, rfl, rfl,
    C3_success_nonempty_pattern uname_fails 0
      (invocation "getPlatformVersion" FlValue.null) (by decide)⟩

/-- Claim C4, refuted as stated: on a host whose kernel release is
`5.15.0-76-generic` the response carries the `version` field of the buffer,
not the release. -/
theorem C4_release_counterexample :
    cstr (host_ubuntu.uname utsname_zero).2.release = ascii "5.15.0-76-generic" ∧
    (flutter_taerae_plugin_handle_method_call host_ubuntu 0
        (invocation "getPlatformVersion" FlValue.null)).responses =
      [some (FlMethodResponse.success (FlValue.string
        (ascii "Linux #83-Ubuntu SMP Thu Jun 15 19:16:32 UTC 2023")))] ∧
    (flutter_taerae_plugin_handle_method_call host_ubuntu 0
        (invocation "getPlatformVersion" FlValue.null)).responses ≠
      [some (FlMethodResponse.success (FlValue.string (ascii "Linux 5.15.0-76-generic")))] := by
  have h : (flutter_taerae_plugin_handle_method_call host_ubuntu 0
        (invocation "getPlatformVersion" FlValue.null)).responses =
      [some (FlMethodResponse.success (FlValue.string
        (ascii "Linux #83-Ubuntu SMP Thu Jun 15 19:16:32 UTC 2023")))] := rfl
  refine ⟨by decide, h, ?_⟩
  rw [h]
  intro e
  simp only [List.cons.injEq, Option.some.injEq, FlMethodResponse.success.injEq,
    FlValue.string.injEq, and_true] at e
  revert e
  decide

/-- Claim C4, amended: on a host whose `utsname` version field is
`5.15.0-76-generic`, whatever its release field holds, the invocation
`getPlatformVersion` with null arguments yields
`Success("Linux 5.15.0-76-generic")`. -/
theorem C4_version_field_scenario (os : Os) (self : gpointer)
    (hv : cstr (os.uname utsname_zero).2.version = ascii "5.15.0-76-generic") :
    (flutter_taerae_plugin_handle_method_call os self
        (invocation "getPlatformVersion" FlValue.null)).responses =
      [some (FlMethodResponse.success (FlValue.string (ascii "Linux 5.15.0-76-generic")))] := by
  have hname : cstr (invocation "getPlatformVersion" FlValue.null).name =
      ascii "getPlatformVersion" := by decide
  have hcat : ascii "Linux " ++ ascii "5.15.0-76-generic" = ascii "Linux 5.15.0-76-generic" := by
    decide
  rw [handle_method_call_eq, if_pos hname, get_platform_version_eq, hv, hcat]
  rfl

theorem C4_version_field_scenario_witness :
    cstr (host_version_field.uname utsname_zero).2.version = ascii "5.15.0-76-generic" ∧
    cstr (host_version_field.uname utsname_zero).2.release = ascii "6.1.0" ∧
    (flutter_taerae_plugin_handle_method_call host_version_field 0
        (invocation "getPlatformVersion" FlValue.null)).responses =
      [some (FlMethodResponse.success (FlValue.string (ascii "Linux 5.15.0-76-generic")))] :=
  ⟨by decide, by decide, C4_version_field_scenario host_version_field 0 (by decide)⟩

/-- Claim C5: on every path through the dispatcher the respond operation is
called exactly once on the invocation, with a non-null response. -/
theorem C5_exactly_one_response (os : Os) (self : gpointer) (mc : FlMethodCall) :
    (flutter_taerae_plugin_handle_method_call os self mc).responses.length =
      mc.responses.length + 1 ∧
    ∃ r, (flutter_taerae_plugin_handle_method_call os self mc).responses =
      mc.responses ++ [some r] := by
  rw [handle_method_call_eq]
  simp [fl_method_call_respond]

/-- Claim C6: two invocations with the same name handled under the same OS
state receive equal responses, whatever their argument payloads and whichever
plugin instance handles them. -/
theorem C6_response_depends_on_name_and_os (os : Os) (self1 self2 : gpointer)
    (mc1 mc2 : FlMethodCall) (hname : cstr mc1.name = cstr mc2.name) :
    ∃ r, (flutter_taerae_plugin_handle_method_call os self1 mc1).responses =
          mc1.responses ++ [r] ∧
      (flutter_taerae_plugin_handle_method_call os self2 mc2).responses =
          mc2.responses ++ [r] := by
  rw [handle_method_call_eq, handle_method_call_eq, hname]
  exact ⟨_, rfl, rfl⟩

theorem C6_response_depends_on_name_and_os_witness :
    cstr (invocation "getPlatformVersion" FlValue.null).name =
      cstr (invocation "getPlatformVersion" (FlValue.string (ascii "ignored"))).name ∧
    ∃ r, (flutter_taerae_plugin_handle_method_call host_ubuntu 0
            (invocation "getPlatformVersion" FlValue.null)).responses =
          (invocation "getPlatformVersion" FlValue.null).responses ++ [r] ∧
      (flutter_taerae_plugin_handle_method_call host_ubuntu 3
            (invocation "getPlatformVersion" (FlValue.string (ascii "ignored")))).responses =
          (invocation "getPlatformVersion" (FlValue.string (ascii "ignored"))).responses ++ [r] :=
  ⟨by decide,
    C6_response_depends_on_name_and_os host_ubuntu 0 3
      (invocation "getPlatformVersion" FlValue.null)
      (invocation "getPlatformVersion" (FlValue.string (ascii "ignored"))) (by decide)⟩

/-- Claim C7: for every invocation and every OS state the response is Success
or NotImplemented, never an Error; a failing `uname` does not change that. -/
theorem C7_never_error (os : Os) (self : gpointer) (mc : FlMethodCall) :
    ∃ r, (flutter_taerae_plugin_handle_method_call os self mc).responses =
          mc.responses ++ [some r] ∧
      ((∃ value, r = FlMethodResponse.success value) ∨ r = FlMethodResponse.not_implemented) ∧
      ∀ code message details, r ≠ FlMethodResponse.error code message details := by
  rw [handle_method_call_eq, get_platform_version_eq]
  by_cases hname : cstr mc.name = ascii "getPlatformVersion"
  · rw [if_pos hname]
    exact ⟨_, rfl, Or.inl ⟨_, rfl⟩, fun _ _ _ h => FlMethodResponse.noConfusion h⟩
  · rw [if_neg hname]
    exact ⟨_, rfl, Or.inr rfl, fun _ _ _ h => FlMethodResponse.noConfusion h⟩

/-- Claim C9: when `uname` leaves the zero-initialised buffer untouched, as a
failing call does, `get_platform_version` returns Success carrying exactly
`"Linux "`. -/
theorem C9_untouched_buffer (os : Os)
    (hbuf : (os.uname utsname_zero).2 = utsname_zero) :
    get_platform_version os = FlMethodResponse.success (FlValue.string (ascii "Linux ")) := by
  have hz : cstr utsname_zero.version = [] := by decide
  rw [get_platform_version_eq, hbuf, hz, List.append_nil]

theorem C9_untouched_buffer_witness :
    (uname_fails.uname utsname_zero).1 = -1 ∧
    (uname_fails.uname utsname_zero).2 = utsname_zero ∧
    get_platform_version uname_fails =
      FlMethodResponse.success (FlValue.string (ascii "Linux ")) :=
  ⟨rfl, rfl, C9_untouched_buffer uname_fails rfl⟩

/-! ## Registration -/

/-- Claim C8: registering with a registrar allocates one plugin instance, one
codec and one method channel named `flutter_taerae` on that registrar's
messenger, with `method_call_cb` installed on the fresh instance; registering
with two distinct registrars yields two such channels at distinct addresses,
each on its own messenger with its own instance, the first left as it was by
the second registration, and a call received on either is answered as the
dispatcher answers it: Success for `getPlatformVersion`, NotImplemented for
any other name. -/
theorem C8_register_twice_independent (h : Heap) (r1 r2 : FlPluginRegistrar)
    (hr : r1 ≠ r2) (os : Os) (mc : FlMethodCall) :
    flutter_taerae_plugin_register_with_registrar h r1 =
      h ++ [{ ref_count := 1, inst := Instance.TaeraeFlutterPlugin },
            { ref_count := 1, inst := Instance.FlStandardMethodCodec },
            { ref_count := 1,
              inst := Instance.FlMethodChannel r1.messenger (lit "flutter_taerae")
                (h.length + 1)
                (some { handler := FnPtr.method_call_cb, user_data := h.length,
                        destroy_notify := FnPtr.g_object_unref }) }] ∧
    flutter_taerae_plugin_register_with_registrar
        (flutter_taerae_plugin_register_with_registrar h r1) r2 =
      h ++ [{ ref_count := 1, inst := Instance.TaeraeFlutterPlugin },
            { ref_count := 1, inst := Instance.FlStandardMethodCodec },
            { ref_count := 1,
              inst := Instance.FlMethodChannel r1.messenger (lit "flutter_taerae")
                (h.length + 1)
                (some { handler := FnPtr.method_call_cb, user_data := h.length,
                        destroy_notify := FnPtr.g_object_unref }) },
            { ref_count := 1, inst := Instance.TaeraeFlutterPlugin },
            { ref_count := 1, inst := Instance.FlStandardMethodCodec },
            { ref_count := 1,
              inst := Instance.FlMethodChannel r2.messenger (lit "flutter_taerae")
                (h.length + 4)
                (some { handler := FnPtr.method_call_cb, user_data := h.length + 3,
                        destroy_notify := FnPtr.g_object_unref }) }] ∧
    r1.messenger ≠ r2.messenger ∧
    fl_method_channel_receive os (flutter_taerae_plugin_register_with_registrar h r1)
        (h.length + 2) mc =
      flutter_taerae_plugin_handle_method_call os h.length mc ∧
    fl_method_channel_receive os
        (flutter_taerae_plugin_register_with_registrar
          (flutter_taerae_plugin_register_with_registrar h r1) r2)
        (h.length + 2) mc =
      flutter_taerae_plugin_handle_method_call os h.length mc ∧
    fl_method_channel_receive os
        (flutter_taerae_plugin_register_with_registrar
          (flutter_taerae_plugin_register_with_registrar h r1) r2)
        (h.length + 5) mc =
      flutter_taerae_plugin_handle_method_call os (h.length + 3) mc ∧
    ∀ self, (flutter_taerae_plugin_handle_method_call os self mc).responses =
      mc.responses ++
        [some (if cstr mc.name = ascii "getPlatformVersion" then
                 FlMethodResponse.success (FlValue.string
                   (ascii "Linux " ++ cstr (os.uname utsname_zero).2.version))
               else FlMethodResponse.not_implemented)] := by
  have hm : r1.messenger ≠ r2.messenger := by
    intro e
    apply hr
    cases r1
    cases r2
    simp_all
  have h5 := receive_append os
    (h ++ [{ ref_count := 1, inst := Instance.TaeraeFlutterPlugin },
           { ref_count := 1, inst := Instance.FlStandardMethodCodec },
           { ref_count := 1,
             inst := Instance.FlMethodChannel r1.messenger (lit "flutter_taerae")
               (h.length + 1)
               (some { handler := FnPtr.method_call_cb, user_data := h.length,
                       destroy_notify := FnPtr.g_object_unref }) }])
    { ref_count := 1, inst := Instance.TaeraeFlutterPlugin }
    { ref_count := 1, inst := Instance.FlStandardMethodCodec }
    1 r2.messenger (lit "flutter_taerae") (h.length + 4) (h.length + 3)
    FnPtr.g_object_unref [] mc
  simp only [List.length_append, List.length_cons, List.length_nil, List.append_assoc,
    List.cons_append, List.nil_append] at h5
  refine ⟨register_eq h r1, ?_, hm, ?_, ?_, ?_, ?_⟩
  · rw [register_eq, register_eq]
    simp [Nat.add_assoc]
  · rw [register_eq]
    exact receive_append os h _ _ 1 _ _ _ _ _ [] mc
  · rw [register_eq, register_eq]
    simp only [List.append_assoc, List.cons_append, List.nil_append]
    exact receive_append os h _ _ 1 _ _ _ _ _ _ mc
  · rw [register_eq, register_eq]
    simp only [List.length_append, List.length_cons, List.length_nil, List.append_assoc,
      List.cons_append, List.nil_append, Nat.add_assoc, Nat.reduceAdd]
    simpa [Nat.add_assoc] using h5
  · intro self
    rw [handle_method_call_eq, get_platform_version_eq]
    rfl

theorem C8_register_twice_independent_witness :
    ({ messenger := 7 } : FlPluginRegistrar) ≠ { messenger := 9 } ∧
    fl_method_channel_receive host_ubuntu
        (flutter_taerae_plugin_register_with_registrar
          (flutter_taerae_plugin_register_with_registrar [] { messenger := 7 })
          { messenger := 9 })
        (([] : Heap).length + 5) (invocation "getPlatformVersion" FlValue.null) =
      flutter_taerae_plugin_handle_method_call host_ubuntu (([] : Heap).length + 3)
        (invocation "getPlatformVersion" FlValue.null) :=
  ⟨by decide,
    (C8_register_twice_independent [] { messenger := 7 } { messenger := 9 } (by decide)
      host_ubuntu (invocation "getPlatformVersion" FlValue.null)).2.2.2.2.2.1⟩

end Taerae
